import Mathlib

/-!
Verification of the esp32-scalers input/control layer: a shallow embedding of
src/button.rs (debounce engine, dispatcher tick, event-channel consumer
primitives) and src/scale.rs (action resolver, calibration protocol,
persistence of the scale factor), with theorems settling the specified
properties.

Machine integers are modelled as Nat with explicit reduction modulo 2^16
where u16 overflow matters.  The hx711 float pipeline is modelled exactly in
Rat: readings are i64-summed integers, and the i64 -> f64 -> f32 division in
get_avg_reading is exact enough that its result is zero iff the integer sum
is zero (16 i32 readings sum to at most 16 * 2^31 in magnitude, exact in f64,
and a nonzero quotient has magnitude at least 1/16, which cannot round to
zero in f32).  f32 values that only travel through to_bits/from_bits are
modelled by their 32-bit patterns, since the Rust f32::to_bits/from_bits are
bitwise transmutes.
-/

namespace Scalers

/-- ButtonEvent from src/button.rs lines 15-20. -/
inductive ButtonEvent where
  | Up
  | Down
  | Held
  deriving DecidableEq

/-- HISTORY_MASK from src/button.rs line 13: 0b1111000000111111. -/
def HISTORY_MASK : Nat := 0xF03F

/-- CONFIG_ESP32_BUTTON_LONG_PRESS_DURATION_MS from src/button.rs line 9,
in milliseconds. -/
def LONG_PRESS_MS : Nat := 3000

/-- Button state from src/button.rs lines 22-28.  `history` is the u16
rolling sample register (kept < 2^16 by button_update); timestamps are
milliseconds as Nat. -/
structure Button where
  inverted : Bool
  history : Nat
  down_time : Option Nat
  next_long_time : Option Nat
  deriving DecidableEq

/-- Button::new from src/button.rs lines 35-41. -/
def Button.new (inverted : Bool) : Button :=
  { inverted := inverted
    history := if inverted then 0xFFFF else 0x0000
    down_time := none
    next_long_time := none }

/-- Button::button_rose from src/button.rs lines 80-87.  Returns the bool
result together with the updated state (the source mutates `self`). -/
def Button.button_rose (b : Button) : Bool × Button :=
  if b.history &&& HISTORY_MASK = 0x003F then
    (true, { b with history := 0xFFFF })
  else
    (false, b)

/-- Button::button_fell from src/button.rs lines 89-96. -/
def Button.button_fell (b : Button) : Bool × Button :=
  if b.history &&& HISTORY_MASK = 0xF000 then
    (true, { b with history := 0x0000 })
  else
    (false, b)

/-- Button::button_up from src/button.rs lines 98-104. -/
def Button.button_up (b : Button) : Bool × Button :=
  if b.inverted then b.button_rose else b.button_fell

/-- Button::button_down from src/button.rs lines 106-112. -/
def Button.button_down (b : Button) : Bool × Button :=
  if b.inverted then b.button_fell else b.button_rose

/-- Button::button_update from src/button.rs lines 114-117: shift one raw
sample (true = electrically High) into the low bit of the u16 register. -/
def Button.button_update (b : Button) (level : Bool) : Button :=
  { b with history := (b.history * 2 + (if level then 1 else 0)) % 65536 }

/-- One iteration of the dispatcher loop in Button::start_task,
src/button.rs lines 48-77: update the register from the sampled level, then
run the three-branch if chain.  `now` is the timestamp of the tick in ms (the two
Instant::now() calls within one iteration are modelled as the same instant).
The emitted event, if any, is returned alongside the new state; the
channel-send itself (whose unwrap panics if the receiver is gone) is outside
this state machine. -/
def Button.tick (b0 : Button) (level : Bool) (now : Nat) : Button × Option ButtonEvent :=
  let b := b0.button_update level
  match b.down_time with
  | some _ =>
      let r := b.button_up
      if r.1 then
        ({ r.2 with down_time := none }, some ButtonEvent.Up)
      else
        match b.next_long_time with
        | some t =>
            if t ≤ now then
              ({ r.2 with next_long_time := none }, some ButtonEvent.Held)
            else
              (r.2, none)
        | none => (r.2, none)
  | none =>
      let r := b.button_down
      if r.1 then
        ({ r.2 with down_time := some now, next_long_time := some (now + LONG_PRESS_MS) },
          some ButtonEvent.Down)
      else
        (r.2, none)

/-- Run the dispatcher over a list of (sampled level, timestamp) inputs,
collecting the emitted events in order. -/
def runBtn : Button → List (Bool × Nat) → Button × List ButtonEvent
  | b, [] => (b, [])
  | b, (level, now) :: rest =>
      let s := b.tick level now
      let r := runBtn s.1 rest
      (r.1, s.2.toList ++ r.2)

/-- Occurrence count of one event in an emitted event list. -/
def countEv (e : ButtonEvent) : List ButtonEvent → Nat
  | [] => 0
  | x :: xs => (if x = e then 1 else 0) + countEv e xs

/-- The debounce engine confirms a release on this tick: the sampled level is
shifted in and button_up reports true.  This is exactly the condition of the
first branch of the dispatcher chain (src/button.rs line 51) once a press is
open. -/
def releaseConfirmed (b : Button) (level : Bool) : Bool :=
  ((b.button_update level).button_up).1

/-- ButtonEventHandle::wait_for_event from src/button.rs lines 126-140,
with the channel contents as a list consumed FIFO by recv.  When the list is
exhausted the producer is gone and recv returns Err; the code logs an error
and breaks.  Result: (true, remaining queue) when the requested variant was
observed, (false, []) when the wait ended through the channel-closed error
path. -/
def wait_for_event (ev : ButtonEvent) : List ButtonEvent → Bool × List ButtonEvent
  | [] => (false, [])
  | e :: rest => if e = ev then (true, rest) else wait_for_event ev rest

/-- ScaleAction from src/scale.rs lines 28-31. -/
inductive ScaleAction where
  | Tare
  | Calibrate
  deriving DecidableEq

/-- One step of Scale::poll_action, src/scale.rs lines 194-217, on a consumed
event: `last` is self.last_button_event; the result is the new
last_button_event paired with the resolved action.  Down stores itself and
yields nothing; Held and Up swap themselves in via Option::replace and yield
Calibrate resp. Tare exactly when the replaced value was Down. -/
def poll_action (last : Option ButtonEvent) (ev : ButtonEvent) :
    Option ButtonEvent × Option ScaleAction :=
  match ev with
  | ButtonEvent.Down => (some ButtonEvent.Down, none)
  | ButtonEvent.Held =>
      (some ButtonEvent.Held,
        match last with
        | some le => if le = ButtonEvent.Down then some ScaleAction.Calibrate else none
        | none => none)
  | ButtonEvent.Up =>
      (some ButtonEvent.Up,
        match last with
        | some le => if le = ButtonEvent.Down then some ScaleAction.Tare else none
        | none => none)

/-- Fold poll_action over a sequence of consumed events, recording the action
resolved at each step. -/
def resolve (last : Option ButtonEvent) : List ButtonEvent → List (Option ScaleAction)
  | [] => []
  | e :: rest =>
      let s := poll_action last e
      s.2 :: resolve s.1 rest

/-- An f32 value represented by its 32-bit pattern.  The Rust
f32::to_bits/from_bits are bitwise transmutes, so values that only travel
through them are fully described by their bits. -/
structure F32 where
  bits : Fin 4294967296
  deriving DecidableEq

/-- f32::from_bits as used in src/scale.rs line 59. -/
def f32_from_bits (n : Fin 4294967296) : F32 := ⟨n⟩

/-- f32::to_bits as used in src/scale.rs line 181. -/
def f32_to_bits (f : F32) : Fin 4294967296 := f.bits

/-- SCALE_FACTOR_KEY from src/scale.rs line 20. -/
def SCALE_FACTOR_KEY : String := "scale_factor"

/-- The NVS partition as a key -> u32 map (the opaque persistent store). -/
def NvsStore := String → Option (Fin 4294967296)

/-- EspNvs::get_u32 on the model store; a store-level error is collapsed to
None by the unwrap_or(None) at src/scale.rs line 58. -/
def nvs_get_u32 (s : NvsStore) (key : String) : Option (Fin 4294967296) := s key

/-- EspNvs::set_u32 on the model store (the success case). -/
def nvs_set_u32 (s : NvsStore) (key : String) (v : Fin 4294967296) : NvsStore :=
  fun k => if k = key then some v else s k

/-- The scale-factor load in Scale::new, src/scale.rs lines 56-62:
get_u32(SCALE_FACTOR_KEY).unwrap_or(None).map(f32::from_bits). -/
def load_scale_factor (s : NvsStore) : Option F32 :=
  (nvs_get_u32 s SCALE_FACTOR_KEY).map f32_from_bits

/-- SCALE_CALIBRATION_NUM_SAMPLES from src/scale.rs line 23. -/
def SCALE_CALIBRATION_NUM_SAMPLES : Nat := 16

/-- SCALE_CALIBRATION_WEIGHT_GRAMS from src/scale.rs line 24, exact in Rat. -/
def SCALE_CALIBRATION_WEIGHT_GRAMS : ℚ := 2000

def errNumSamples : String := "num_samples must be greater than 0"

/-- Sum of the first n successful readings (the source accumulates them in an
i64; 16 i32 readings cannot overflow it, so plain Int is exact). -/
def sumReadings (readings : Nat → Int) : Nat → Int
  | 0 => 0
  | n + 1 => sumReadings readings n + readings n

/-- Scale::get_avg_reading from src/scale.rs lines 97-117.  `readings n` is
the n-th successful hx711.read() result: a failed read only sleeps and
retries (src/scale.rs lines 112-114), so the loop gathers exactly
num_samples successes; the indefinitely-retrying loop is modelled by the
total stream of eventual successes.  The i64 / f64 -> f32 average is modelled
exactly in Rat (see the header note on why the zero test agrees). -/
def get_avg_reading (readings : Nat → Int) (num_samples : Nat) : Except String ℚ :=
  if num_samples = 0 then Except.error errNumSamples
  else Except.ok ((sumReadings readings num_samples : ℚ) / (num_samples : ℚ))

/-- Observable effects of one Scale::calibrate run, in program order. -/
inductive CalEffect where
  | clearEvents
  | draw (msg : String)
  | waitDown
  | tareSensor
  | setScale (v : ℚ)
  | nvsSet (v : ℚ)
  | logPersistFail
  deriving DecidableEq

def msgEmptyScale : String := "Empty the scale!\nPress to continue"
def msgTaring : String := "Taring..."
def msgTareComplete : String := "Tare complete."
def msgPlaceWeight : String := "Place 2000g weight\nPress to continue"
def msgCalibrating : String := "Calibrating..."
def msgCalibrationFailed : String := "Calibration failed"
def msgCalibrationComplete : String := "Calibration complete"

/-- The Scale state that calibrate touches: the factor currently applied to
the hx711, the in-memory scale_factor field, and the u32 persisted under
SCALE_FACTOR_KEY (carried here as the Rat value it encodes, since these
claims only concern whether and with what value set_u32 is called). -/
structure ScaleState where
  hx711_scale : ℚ
  scale_factor : Option ℚ
  nvs_stored : Option ℚ
  deriving DecidableEq

/-- Effects common to every calibrate run up to the averaging step,
src/scale.rs lines 128-161: clear pending events, prompt, block on Down,
tare (which draws its own two messages and tares the sensor), prompt for the
reference weight, block on Down, announce calibrating. -/
def calPrefix : List CalEffect :=
  [CalEffect.clearEvents, CalEffect.draw msgEmptyScale, CalEffect.waitDown,
   CalEffect.draw msgTaring, CalEffect.tareSensor, CalEffect.draw msgTareComplete,
   CalEffect.draw msgPlaceWeight, CalEffect.waitDown, CalEffect.draw msgCalibrating]

/-- Scale::calibrate from src/scale.rs lines 119-192.  `readings` feeds
get_avg_reading; `nvs_set_ok` is whether set_u32 on the store succeeds.
`none` models the panic of the unwrap at line 163 (the Except.error case);
`some (st, effs)` models returning Ok(()) with final state st and the
effects performed, in order.  Display writes are modelled as always
succeeding draw effects (the display is an opaque sink). -/
def calibrate (st : ScaleState) (readings : Nat → Int) (nvs_set_ok : Bool) :
    Option (ScaleState × List CalEffect) :=
  match get_avg_reading readings SCALE_CALIBRATION_NUM_SAMPLES with
  | Except.error _ => none
  | Except.ok avg =>
      if avg = 0 then
        some (st, calPrefix ++ [CalEffect.draw msgCalibrationFailed])
      else
        let factor := SCALE_CALIBRATION_WEIGHT_GRAMS / avg
        some
          ({ st with
              hx711_scale := factor
              scale_factor := some factor
              nvs_stored := if nvs_set_ok then some factor else st.nvs_stored },
            calPrefix ++
              [CalEffect.setScale factor, CalEffect.draw msgCalibrationComplete,
               CalEffect.nvsSet factor] ++
              (if nvs_set_ok then [] else [CalEffect.logPersistFail]) ++
              [CalEffect.clearEvents])

/-! Helper lemmas -/

/-- button_rose only touches the history field. -/
lemma Button.button_rose_fields (b : Button) :
    (b.button_rose).2.down_time = b.down_time ∧
    (b.button_rose).2.next_long_time = b.next_long_time ∧
    (b.button_rose).2.inverted = b.inverted := by
  unfold Button.button_rose
  split <;> exact ⟨rfl, rfl, rfl⟩

/-- button_fell only touches the history field. -/
lemma Button.button_fell_fields (b : Button) :
    (b.button_fell).2.down_time = b.down_time ∧
    (b.button_fell).2.next_long_time = b.next_long_time ∧
    (b.button_fell).2.inverted = b.inverted := by
  unfold Button.button_fell
  split <;> exact ⟨rfl, rfl, rfl⟩

/-- button_up only touches the history field. -/
lemma Button.button_up_fields (b : Button) :
    (b.button_up).2.down_time = b.down_time ∧
    (b.button_up).2.next_long_time = b.next_long_time := by
  unfold Button.button_up
  rcases hb : b.inverted <;> simp [Button.button_rose_fields, Button.button_fell_fields]

/-- button_down only touches the history field. -/
lemma Button.button_down_fields (b : Button) :
    (b.button_down).2.down_time = b.down_time ∧
    (b.button_down).2.next_long_time = b.next_long_time := by
  unfold Button.button_down
  rcases hb : b.inverted <;> simp [Button.button_rose_fields, Button.button_fell_fields]

/-- Case analysis of one dispatcher tick with respect to next_long_time:
either it emits Down and arms next_long_time, or it emits Held, which
requires next_long_time to have been set and clears it, or it emits neither
Down nor Held and leaves next_long_time unchanged. -/
lemma Button.tick_cases (b : Button) (level : Bool) (now : Nat) :
    ((b.tick level now).2 = some ButtonEvent.Down ∧
      (b.tick level now).1.next_long_time = some (now + LONG_PRESS_MS)) ∨
    ((b.tick level now).2 = some ButtonEvent.Held ∧ b.next_long_time ≠ none ∧
      (b.tick level now).1.next_long_time = none) ∨
    ((b.tick level now).2 ≠ some ButtonEvent.Down ∧
      (b.tick level now).2 ≠ some ButtonEvent.Held ∧
      (b.tick level now).1.next_long_time = b.next_long_time) := by
  have hu2 : ((b.button_update level).button_up).2.next_long_time = b.next_long_time :=
    (Button.button_up_fields _).2
  have hd2 : ((b.button_update level).button_down).2.next_long_time = b.next_long_time :=
    (Button.button_down_fields _).2
  simp only [Button.tick]
  split
  · split
    · exact Or.inr (Or.inr (by simp [hu2]))
    · split
      · split
        · rename_i t heq hle
          refine Or.inr (Or.inl ⟨rfl, ?_, rfl⟩)
          have hbt : b.next_long_time = some t := heq
          simp [hbt]
        · exact Or.inr (Or.inr (by simp [hu2]))
      · exact Or.inr (Or.inr (by simp [hu2]))
  · split
    · exact Or.inl ⟨rfl, rfl⟩
    · exact Or.inr (Or.inr (by simp [hd2]))

lemma countEv_append (e : ButtonEvent) (xs ys : List ButtonEvent) :
    countEv e (xs ++ ys) = countEv e xs + countEv e ys := by
  induction xs with
  | nil => simp [countEv]
  | cons x xs ih => simp [countEv, ih, Nat.add_assoc]

lemma countEv_toList (x : ButtonEvent) (o : Option ButtonEvent) :
    countEv x o.toList = if o = some x then 1 else 0 := by
  cases o <;> simp [countEv]

/-- If next_long_time is unset and the run emits no Down (which is the only
way to re-arm next_long_time), then no Held is ever emitted. -/
lemma runBtn_no_arm_no_held (l : List (Bool × Nat)) :
    ∀ b : Button, b.next_long_time = none →
      countEv ButtonEvent.Down (runBtn b l).2 = 0 →
      countEv ButtonEvent.Held (runBtn b l).2 = 0 := by
  induction l with
  | nil => intro b _ _; rfl
  | cons p rest ih =>
      obtain ⟨level, now⟩ := p
      intro b hn hD
      simp only [runBtn] at hD ⊢
      rw [countEv_append] at hD ⊢
      rcases Button.tick_cases b level now with h1 | h2 | h3
      · rw [h1.1, countEv_toList] at hD
        simp at hD
      · exact absurd hn h2.2.1
      · have hDrest : countEv ButtonEvent.Down (runBtn (b.tick level now).1 rest).2 = 0 := by
          omega
        have hnext : (b.tick level now).1.next_long_time = none := h3.2.2.trans hn
        rw [countEv_toList, if_neg h3.2.1, ih (b.tick level now).1 hnext hDrest]

/-- A run that emits no Down emits at most one Held: Held fires only with
next_long_time armed, firing clears it, and only a Down re-arms it. -/
lemma runBtn_no_down_held_le_one (l : List (Bool × Nat)) :
    ∀ b : Button, countEv ButtonEvent.Down (runBtn b l).2 = 0 →
      countEv ButtonEvent.Held (runBtn b l).2 ≤ 1 := by
  induction l with
  | nil => intro b _; simp [runBtn, countEv]
  | cons p rest ih =>
      obtain ⟨level, now⟩ := p
      intro b hD
      simp only [runBtn] at hD ⊢
      rw [countEv_append] at hD ⊢
      have hDrest : countEv ButtonEvent.Down (runBtn (b.tick level now).1 rest).2 = 0 := by
        omega
      rcases Button.tick_cases b level now with h1 | h2 | h3
      · rw [h1.1, countEv_toList] at hD
        simp at hD
      · have hrest : countEv ButtonEvent.Held (runBtn (b.tick level now).1 rest).2 = 0 :=
          runBtn_no_arm_no_held rest (b.tick level now).1 h2.2.2 hDrest
        rw [h2.1, countEv_toList, hrest]
        simp
      · rw [countEv_toList, if_neg h3.2.1]
        have := ih (b.tick level now).1 hDrest
        omega

/-- Pin samples for a press on an inverted (idle-high) button held past the
3000 ms long-press threshold with no release: six Low samples confirm the
press at t = 50 ms, then the line stays Low through t = 3060 ms. -/
def pressHeldTrace : List (Bool × Nat) :=
  [(false, 0), (false, 10), (false, 20), (false, 30), (false, 40), (false, 50),
   (false, 3050), (false, 3060)]

/-! Theorems for the claims -/

/-- Claim C1: poll_action implements exactly the stated policy on every
consumed event: Down stores itself and yields no action; Held replaces
last_button_event and yields Calibrate iff the replaced value was Down; Up
replaces last_button_event and yields Tare iff the replaced value was Down.
In particular [Down] yields no action, [Down, Up] yields Tare, [Down, Held]
yields Calibrate, and [Down, Held, Up] yields Calibrate then no action. -/
theorem C1_poll_action_policy :
    (∀ last, poll_action last ButtonEvent.Down = (some ButtonEvent.Down, none)) ∧
    (∀ last, poll_action last ButtonEvent.Held =
      (some ButtonEvent.Held,
        if last = some ButtonEvent.Down then some ScaleAction.Calibrate else none)) ∧
    (∀ last, poll_action last ButtonEvent.Up =
      (some ButtonEvent.Up,
        if last = some ButtonEvent.Down then some ScaleAction.Tare else none)) ∧
    resolve none [ButtonEvent.Down] = [none] ∧
    resolve none [ButtonEvent.Down, ButtonEvent.Up] = [none, some ScaleAction.Tare] ∧
    resolve none [ButtonEvent.Down, ButtonEvent.Held] = [none, some ScaleAction.Calibrate] ∧
    resolve none [ButtonEvent.Down, ButtonEvent.Held, ButtonEvent.Up] =
      [none, some ScaleAction.Calibrate, none] := by
  refine ⟨fun last => rfl, fun last => ?_, fun last => ?_, rfl, rfl, rfl, rfl⟩ <;>
    rcases last with _ | le
  · rfl
  · rcases le <;> rfl
  · rfl
  · rcases le <;> rfl

/-- Claim C4: for every history register, button_rose fires iff the masked
register equals 0x003F, in which case the register is set to all-1s, and an
immediate second call on the all-1s register returns false; symmetrically
button_fell fires iff the masked register equals 0xF000, resets to all-0s,
and an immediate second call returns false. -/
theorem C4_edge_detection (b : Button) :
    ((b.button_rose).1 = true ↔ b.history &&& HISTORY_MASK = 0x003F) ∧
    ((b.button_rose).2 =
      if b.history &&& HISTORY_MASK = 0x003F then { b with history := 0xFFFF } else b) ∧
    (Button.button_rose { b with history := 0xFFFF }).1 = false ∧
    ((b.button_fell).1 = true ↔ b.history &&& HISTORY_MASK = 0xF000) ∧
    ((b.button_fell).2 =
      if b.history &&& HISTORY_MASK = 0xF000 then { b with history := 0x0000 } else b) ∧
    (Button.button_fell { b with history := 0x0000 }).1 = false := by
  refine ⟨?_, ?_, ?_, ?_, ?_, ?_⟩
  · by_cases hc : b.history &&& HISTORY_MASK = 0x003F <;> simp [Button.button_rose, hc]
  · by_cases hc : b.history &&& HISTORY_MASK = 0x003F <;> simp [Button.button_rose, hc]
  · simp only [Button.button_rose, HISTORY_MASK]
    rw [if_neg (by decide)]
  · by_cases hc : b.history &&& HISTORY_MASK = 0xF000 <;> simp [Button.button_fell, hc]
  · by_cases hc : b.history &&& HISTORY_MASK = 0xF000 <;> simp [Button.button_fell, hc]
  · simp only [Button.button_fell, HISTORY_MASK]
    rw [if_neg (by decide)]

/-- Claim C5: for every button state, when inverted is true, button_up is
button_rose and button_down is button_fell; when inverted is false, button_up
is button_fell and button_down is button_rose. -/
theorem C5_inversion_mapping (h : Nat) (d t : Option Nat) :
    Button.button_up ⟨true, h, d, t⟩ = Button.button_rose ⟨true, h, d, t⟩ ∧
    Button.button_down ⟨true, h, d, t⟩ = Button.button_fell ⟨true, h, d, t⟩ ∧
    Button.button_up ⟨false, h, d, t⟩ = Button.button_fell ⟨false, h, d, t⟩ ∧
    Button.button_down ⟨false, h, d, t⟩ = Button.button_rose ⟨false, h, d, t⟩ :=
  ⟨rfl, rfl, rfl, rfl⟩

/-- Claim C8: persisting a 32-bit float scale factor as its raw bit pattern
under the fixed key and reloading it through the startup path reconstructs a
bit-identical value, and to_bits/from_bits are mutually inverse on bit
patterns (no decimal re-parsing or rounding drift). -/
theorem C8_factor_roundtrip :
    (∀ (s : NvsStore) (F : F32),
      load_scale_factor (nvs_set_u32 s SCALE_FACTOR_KEY (f32_to_bits F)) = some F) ∧
    (∀ b, f32_to_bits (f32_from_bits b) = b) ∧
    (∀ F, f32_from_bits (f32_to_bits F) = F) := by
  refine ⟨?_, fun b => rfl, fun F => rfl⟩
  intro s F
  simp [load_scale_factor, nvs_get_u32, nvs_set_u32, f32_from_bits, f32_to_bits]

/-- Claim C3 counterexample: a tick with a press open (down_time set) and a
release confirmed by the debounce engine emits Up and clears down_time, but
does NOT clear next_long_time, contradicting the claim that both timestamps
are cleared.  Concrete input: inverted button, history 0x001F, down_time 0,
next_long_time 3000, sampled level High at time 100: the updated register is
0x003F, button_up fires, and next_long_time is still some 3000 afterwards. -/
theorem C3_up_keeps_next_long_time_counterexample :
    (⟨true, 0x001F, some 0, some 3000⟩ : Button).down_time.isSome = true ∧
    releaseConfirmed ⟨true, 0x001F, some 0, some 3000⟩ true = true ∧
    (Button.tick ⟨true, 0x001F, some 0, some 3000⟩ true 100).2 = some ButtonEvent.Up ∧
    (Button.tick ⟨true, 0x001F, some 0, some 3000⟩ true 100).1.next_long_time = some 3000 ∧
    ¬(Button.tick ⟨true, 0x001F, some 0, some 3000⟩ true 100).1.next_long_time = none := by
  decide

/-- Claim C3 (amended): on every dispatcher tick in which a press is open
(down_time is set) and a release is confirmed by the debounce engine, the
dispatcher emits exactly one Up event and clears down_time; next_long_time
is left unchanged (the source only assigns down_time = None in that
branch). -/
theorem C3_up_branch_effect (b : Button) (level : Bool) (now : Nat)
    (hd : b.down_time.isSome = true) (hr : releaseConfirmed b level = true) :
    (b.tick level now).2 = some ButtonEvent.Up ∧
    (b.tick level now).1.down_time = none ∧
    (b.tick level now).1.next_long_time = b.next_long_time := by
  unfold releaseConfirmed at hr
  obtain ⟨d, hD⟩ := Option.isSome_iff_exists.mp hd
  have hud : (b.button_update level).down_time = b.down_time := rfl
  have key : b.tick level now =
      ({ ((b.button_update level).button_up).2 with down_time := none },
        some ButtonEvent.Up) := by
    simp only [Button.tick]
    split
    · rw [hr]
      simp
    · rename_i heq
      rw [hud, hD] at heq
      simp at heq
  refine ⟨by rw [key], by rw [key], ?_⟩
  rw [key]
  exact (Button.button_up_fields (b.button_update level)).2

/-- Witness for C3_up_branch_effect at a concrete input. -/
theorem C3_up_branch_effect_witness :
    (⟨true, 0x001F, some 0, some 3000⟩ : Button).down_time.isSome = true ∧
    releaseConfirmed ⟨true, 0x001F, some 0, some 3000⟩ true = true ∧
    ((Button.tick ⟨true, 0x001F, some 0, some 3000⟩ true 100).2 = some ButtonEvent.Up ∧
      (Button.tick ⟨true, 0x001F, some 0, some 3000⟩ true 100).1.down_time = none ∧
      (Button.tick ⟨true, 0x001F, some 0, some 3000⟩ true 100).1.next_long_time =
        (⟨true, 0x001F, some 0, some 3000⟩ : Button).next_long_time) :=
  ⟨by decide, by decide,
    C3_up_branch_effect ⟨true, 0x001F, some 0, some 3000⟩ true 100 (by decide) (by decide)⟩

/-- Claim C6: in every dispatcher run, between a Down and the next Up (more
strongly: in any run segment emitting no Down, from any state) at most one
Held is emitted, because Held fires only with next_long_time armed, firing
clears it, and only the Down branch re-arms it; and for a press held at
least 3000 ms with no release the emitted sequence is exactly Down then
Held, never Held twice. -/
theorem C6_held_at_most_once_per_press :
    (∀ (b : Button) (l : List (Bool × Nat)),
      countEv ButtonEvent.Down (runBtn b l).2 = 0 →
      countEv ButtonEvent.Held (runBtn b l).2 ≤ 1) ∧
    (runBtn (Button.new true) pressHeldTrace).2 = [ButtonEvent.Down, ButtonEvent.Held] := by
  refine ⟨fun b l => runBtn_no_down_held_le_one l b, ?_⟩
  decide

/-- Witness for C6_held_at_most_once_per_press at a concrete input: a state
with the long-press deadline already elapsed emits Held once, no Down. -/
theorem C6_held_at_most_once_per_press_witness :
    countEv ButtonEvent.Down (runBtn ⟨true, 0, some 0, some 0⟩ [(false, 5)]).2 = 0 ∧
    countEv ButtonEvent.Held (runBtn ⟨true, 0, some 0, some 0⟩ [(false, 5)]).2 ≤ 1 :=
  ⟨by decide,
    C6_held_at_most_once_per_press.1 ⟨true, 0, some 0, some 0⟩ [(false, 5)] (by decide)⟩

/-- Claim C7: wait_for_event dequeues FIFO (the queue is consumed front to
back), discards every dequeued event that is not the requested variant, and
returns through the success path exactly when the requested variant occurs
in the queue, in which case the events before the first occurrence are
dropped; when the queue is exhausted without the variant (producer gone,
recv errors), the wait ends once and for all through the channel-closed
error path, with nothing left to consume and no retry. -/
theorem C7_wait_for_event_filters (q : List ButtonEvent) (ev : ButtonEvent) :
    ((wait_for_event ev q).1 = true ↔ ev ∈ q) ∧
    (ev ∈ q → ∃ pre rest, q = pre ++ ev :: rest ∧ ev ∉ pre ∧
      wait_for_event ev q = (true, rest)) ∧
    (ev ∉ q → wait_for_event ev q = (false, [])) := by
  induction q with
  | nil => simp [wait_for_event]
  | cons e rest ih =>
      by_cases he : e = ev
      · subst he
        refine ⟨by simp [wait_for_event], ?_, ?_⟩
        · intro _
          exact ⟨[], rest, by simp, by simp, by simp [wait_for_event]⟩
        · intro hn
          exact absurd (List.mem_cons_self _ _) hn
      · have hw : wait_for_event ev (e :: rest) = wait_for_event ev rest := by
          simp [wait_for_event, he]
        have hne : ev ≠ e := fun h => he h.symm
        refine ⟨?_, ?_, ?_⟩
        · rw [hw, ih.1]
          simp [List.mem_cons, hne]
        · intro hm
          have hm2 : ev ∈ rest := by
            rcases List.mem_cons.mp hm with h | h
            · exact absurd h hne
            · exact h
          obtain ⟨pre, r2, hq, hnp, hwr⟩ := ih.2.1 hm2
          refine ⟨e :: pre, r2, by simp [hq], ?_, ?_⟩
          · simp [List.mem_cons, hne, hnp]
          · rw [hw, hwr]
        · intro hn
          have hnr : ev ∉ rest := fun h => hn (List.mem_cons_of_mem _ h)
          rw [hw, ih.2.2 hnr]

/-- Witness for C7_wait_for_event_filters at a concrete queue. -/
theorem C7_wait_for_event_filters_witness :
    ButtonEvent.Down ∈ [ButtonEvent.Up, ButtonEvent.Down, ButtonEvent.Held] ∧
    ∃ pre rest,
      [ButtonEvent.Up, ButtonEvent.Down, ButtonEvent.Held] = pre ++ ButtonEvent.Down :: rest ∧
      ButtonEvent.Down ∉ pre ∧
      wait_for_event ButtonEvent.Down [ButtonEvent.Up, ButtonEvent.Down, ButtonEvent.Held] =
        (true, rest) :=
  ⟨by decide,
    (C7_wait_for_event_filters [ButtonEvent.Up, ButtonEvent.Down, ButtonEvent.Held]
      ButtonEvent.Down).2.1 (by decide)⟩

/-- Claim C2: when the averaged raw reading is exactly zero, calibrate draws
the calibration-failure message and returns Ok with the scale state exactly
unchanged (scale_factor stays what it was, in particular None, and the
factor applied to the sensor is untouched), performing no set_u32 call and
no set_scale call. -/
theorem C2_zero_average_no_persist (st : ScaleState) (readings : Nat → Int) (ok : Bool)
    (h : get_avg_reading readings SCALE_CALIBRATION_NUM_SAMPLES = Except.ok 0) :
    calibrate st readings ok = some (st, calPrefix ++ [CalEffect.draw msgCalibrationFailed]) ∧
    CalEffect.draw msgCalibrationFailed ∈ calPrefix ++ [CalEffect.draw msgCalibrationFailed] ∧
    (∀ v, CalEffect.nvsSet v ∉ calPrefix ++ [CalEffect.draw msgCalibrationFailed]) ∧
    (∀ v, CalEffect.setScale v ∉ calPrefix ++ [CalEffect.draw msgCalibrationFailed]) := by
  refine ⟨by simp [calibrate, h], by simp, ?_, ?_⟩
  · intro v
    simp [calPrefix]
  · intro v
    simp [calPrefix]

/-- Witness for C2_zero_average_no_persist: all-zero readings. -/
theorem C2_zero_average_no_persist_witness :
    get_avg_reading (fun _ => 0) SCALE_CALIBRATION_NUM_SAMPLES = Except.ok 0 ∧
    calibrate ⟨1, none, none⟩ (fun _ => 0) true =
      some (⟨1, none, none⟩, calPrefix ++ [CalEffect.draw msgCalibrationFailed]) :=
  ⟨by norm_num [get_avg_reading, sumReadings, SCALE_CALIBRATION_NUM_SAMPLES],
    (C2_zero_average_no_persist ⟨1, none, none⟩ (fun _ => 0) true
      (by norm_num [get_avg_reading, sumReadings, SCALE_CALIBRATION_NUM_SAMPLES])).1⟩

/-- Claim C9: when the average is nonzero and set_u32 fails, calibrate still
returns Ok; the computed factor 2000 / avg is applied to the sensor and
stored in the in-memory scale_factor field, the persisted value is
unchanged, the set_u32 call is made, and the failure is logged (the
logPersistFail effect) and swallowed. -/
theorem C9_persist_failure_swallowed (st : ScaleState) (readings : Nat → Int) (avg : ℚ)
    (h : get_avg_reading readings SCALE_CALIBRATION_NUM_SAMPLES = Except.ok avg)
    (hz : avg ≠ 0) :
    calibrate st readings false =
      some ({ st with
                hx711_scale := SCALE_CALIBRATION_WEIGHT_GRAMS / avg
                scale_factor := some (SCALE_CALIBRATION_WEIGHT_GRAMS / avg)
                nvs_stored := st.nvs_stored },
        calPrefix ++
          [CalEffect.setScale (SCALE_CALIBRATION_WEIGHT_GRAMS / avg),
           CalEffect.draw msgCalibrationComplete,
           CalEffect.nvsSet (SCALE_CALIBRATION_WEIGHT_GRAMS / avg),
           CalEffect.logPersistFail, CalEffect.clearEvents]) := by
  simp [calibrate, h, hz]

/-- Witness for C9_persist_failure_swallowed: constant readings of 4000, so
avg = 4000 and the computed factor is 2000 / 4000 = 1/2. -/
theorem C9_persist_failure_swallowed_witness :
    get_avg_reading (fun _ => 4000) SCALE_CALIBRATION_NUM_SAMPLES = Except.ok 4000 ∧
    (4000 : ℚ) ≠ 0 ∧
    calibrate ⟨1, none, some 3⟩ (fun _ => 4000) false =
      some ({ (⟨1, none, some 3⟩ : ScaleState) with
                hx711_scale := SCALE_CALIBRATION_WEIGHT_GRAMS / 4000
                scale_factor := some (SCALE_CALIBRATION_WEIGHT_GRAMS / 4000)
                nvs_stored := (⟨1, none, some 3⟩ : ScaleState).nvs_stored },
        calPrefix ++
          [CalEffect.setScale (SCALE_CALIBRATION_WEIGHT_GRAMS / 4000),
           CalEffect.draw msgCalibrationComplete,
           CalEffect.nvsSet (SCALE_CALIBRATION_WEIGHT_GRAMS / 4000),
           CalEffect.logPersistFail, CalEffect.clearEvents]) :=
  ⟨by norm_num [get_avg_reading, sumReadings, SCALE_CALIBRATION_NUM_SAMPLES],
    by norm_num,
    C9_persist_failure_swallowed ⟨1, none, some 3⟩ (fun _ => 4000) 4000
      (by norm_num [get_avg_reading, sumReadings, SCALE_CALIBRATION_NUM_SAMPLES])
      (by norm_num)⟩

/-- Claim C10: get_avg_reading returns an error exactly when num_samples is
zero, and returns Ok for every positive num_samples; consequently calibrate,
which calls it with the constant 16, always reaches some result and the
unwrap at src/scale.rs line 163 (the `none` branch of the model) can never
panic. -/
theorem C10_avg_reading_total :
    (∀ (readings : Nat → Int) (num_samples : Nat), num_samples = 0 →
      get_avg_reading readings num_samples = Except.error errNumSamples) ∧
    (∀ (readings : Nat → Int) (num_samples : Nat), num_samples ≠ 0 →
      ∃ q, get_avg_reading readings num_samples = Except.ok q) ∧
    (∀ (st : ScaleState) (readings : Nat → Int) (ok : Bool),
      (calibrate st readings ok).isSome = true) := by
  refine ⟨?_, ?_, ?_⟩
  · intro r n hn
    simp [get_avg_reading, hn]
  · intro r n hn
    exact ⟨(sumReadings r n : ℚ) / (n : ℚ), by simp [get_avg_reading, hn]⟩
  · intro st r ok
    simp only [calibrate, get_avg_reading, SCALE_CALIBRATION_NUM_SAMPLES]
    norm_num
    split <;> simp

/-- Witness for C10_avg_reading_total at concrete inputs. -/
theorem C10_avg_reading_total_witness :
    get_avg_reading (fun _ => 7) 0 = Except.error errNumSamples ∧
    (∃ q, get_avg_reading (fun _ => 7) 16 = Except.ok q) ∧
    (calibrate ⟨1, none, none⟩ (fun _ => 7) true).isSome = true :=
  ⟨C10_avg_reading_total.1 (fun _ => 7) 0 rfl,
    C10_avg_reading_total.2.1 (fun _ => 7) 16 (by decide),
    C10_avg_reading_total.2.2 ⟨1, none, none⟩ (fun _ => 7) true⟩

end Scalers
